import Mathlib

/-!
Formal model of the `MLTrader` strategy (src/class.py): position sizing,
sentiment gate, and the per-iteration decision engine with bracket orders.

Collaborator calls (broker cash/price lookups, news fetch, sentiment scoring,
order construction/submission, liquidation) are modelled by an explicit
environment `Env`: fallible lookups are `Except Unit` values, and the three
order-side effects carry a Boolean saying whether the call raises. An
iteration returns the new strategy state, the ordered trace of collaborator
calls it performed, and whether the surrounding `try/except` caught an error.

Numbers are modelled as rationals; Python's `round(x, 0)` (round half to
even) is `pythonRound`; dates are day numbers (integers), so `Timedelta(days=3)`
is subtraction of 3.
-/

/-- Python's built-in `round` to 0 digits: nearest integer, ties to even. -/
def pythonRound (x : ℚ) : ℤ :=
  if x - Rat.floor x < 1/2 then Rat.floor x
  else if 1/2 < x - Rat.floor x then Rat.floor x + 1
  else if Rat.floor x % 2 = 0 then Rat.floor x else Rat.floor x + 1

/-- A news item, reduced to the only field the code reads:
`event.__dict__["_raw"]["headline"]`. -/
structure NewsItem where
  headline : String
deriving DecidableEq

/-- The argument triple of `self.api.get_news(symbol=..., start=..., end=...)`.
Dates are day numbers; the `strftime` formatting is the identity here. -/
structure NewsRequest where
  symbol : String
  startDate : ℤ
  endDate : ℤ
deriving DecidableEq

/-- The strategy state set up in `MLTrader.initialize` and carried between
iterations. `last_trade` is `none`, `some "buy"` or `some "sell"`. -/
structure MLTraderState where
  symbol : String
  cash_at_risk : ℚ
  sleeptime : String
  last_trade : Option String
deriving DecidableEq

/-- One iteration's view of every external collaborator: results of the two
broker lookups, the clock, the news source, the scoring model, and whether
each of the three order-side effects raises when called. -/
structure Env where
  get_cash : Except Unit ℚ
  get_last_price : Except Unit ℚ
  today : ℤ
  get_news : NewsRequest → Except Unit (List NewsItem)
  estimate_sentiment : List String → Except Unit (ℚ × String)
  sell_all_fails : Bool
  create_order_fails : Bool
  submit_order_fails : Bool

/-- The bracket order built by `self.create_order(symbol, quantity, side,
type="bracket", take_profit_price=..., stop_loss_price=...)`. -/
structure OrderSpec where
  symbol : String
  quantity : ℚ
  side : String
  kind : String
  take_profit_price : ℚ
  stop_loss_price : ℚ
deriving DecidableEq

/-- A collaborator call performed during an iteration, in program order. -/
inductive Call where
  | getSentiment : Call
  | sellAll : Call
  | createOrder : OrderSpec → Call
  | submitOrder : OrderSpec → Call
deriving DecidableEq

/-- Result of one `on_trading_iteration` call: the state afterwards, the
ordered trace of collaborator calls, and whether the `try/except` around the
order logic caught an exception. -/
structure IterResult where
  state : MLTraderState
  trace : List Call
  execError : Bool
deriving DecidableEq

/-- MLTrader.position_sizing: fetch cash and last price, quantity is
`round(cash * cash_at_risk / last_price, 0)`; any exception (a failing
lookup, or the `ZeroDivisionError` when `last_price = 0`) yields `(0, 0, 0)`. -/
def position_sizing (env : Env) (s : MLTraderState) : ℚ × ℚ × ℚ :=
  match env.get_cash with
  | Except.error _ => (0, 0, 0)
  | Except.ok cash =>
    match env.get_last_price with
    | Except.error _ => (0, 0, 0)
    | Except.ok last_price =>
      if last_price = 0 then (0, 0, 0)
      else (cash, last_price, ((pythonRound (cash * s.cash_at_risk / last_price) : ℤ) : ℚ))

/-- MLTrader.get_dates: `(today, today - Timedelta(days=3))` as day numbers. -/
def get_dates (today : ℤ) : ℤ × ℤ :=
  (today, today - 3)

/-- MLTrader.get_sentiment, instrumented: besides the `(probability, label)`
result it reports the news request that was issued and the headline list
passed to the scoring model (`none` when the news fetch raised before that).
Any exception yields the `(0.5, "neutral")` default. -/
def get_sentiment_run (env : Env) (s : MLTraderState) :
    (ℚ × String) × NewsRequest × Option (List String) :=
  let dates := get_dates env.today
  let req : NewsRequest := ⟨s.symbol, dates.2, dates.1⟩
  match env.get_news req with
  | Except.error _ => ((1/2, "neutral"), req, none)
  | Except.ok news_items =>
    let headlines := news_items.map NewsItem.headline
    match env.estimate_sentiment headlines with
    | Except.error _ => ((1/2, "neutral"), req, some headlines)
    | Except.ok r => (r, req, some headlines)

/-- MLTrader.get_sentiment: the `(probability, sentiment)` pair. -/
def get_sentiment (env : Env) (s : MLTraderState) : ℚ × String :=
  (get_sentiment_run env s).1

/-- The buy bracket order: take-profit `last_price * 1.20`, stop-loss
`last_price * 0.95`. -/
def buyOrderSpec (sym : String) (quantity last_price : ℚ) : OrderSpec :=
  ⟨sym, quantity, "buy", "bracket", last_price * 1.20, last_price * 0.95⟩

/-- The sell bracket order: take-profit `last_price * 0.80`, stop-loss
`last_price * 1.05`. -/
def sellOrderSpec (sym : String) (quantity last_price : ℚ) : OrderSpec :=
  ⟨sym, quantity, "sell", "bracket", last_price * 0.80, last_price * 1.05⟩

/-- One triggered branch of the decision engine: optionally `sell_all`, then
`create_order`, then `submit_order`, then set `last_trade`. A raising call is
still recorded in the trace; it stops execution with `execError = true` and
the state unchanged (the caller's `try/except`). -/
def tradeBranch (env : Env) (s : MLTraderState) (o : OrderSpec)
    (newTrade : String) (liquidate : Bool) : IterResult :=
  if liquidate && env.sell_all_fails then ⟨s, [Call.sellAll], true⟩
  else
    let liq : List Call := if liquidate then [Call.sellAll] else []
    if env.create_order_fails then ⟨s, liq ++ [Call.createOrder o], true⟩
    else if env.submit_order_fails then
      ⟨s, liq ++ [Call.createOrder o, Call.submitOrder o], true⟩
    else
      ⟨⟨s.symbol, s.cash_at_risk, s.sleeptime, some newTrade⟩,
        liq ++ [Call.createOrder o, Call.submitOrder o], false⟩

/-- Record that `get_sentiment` was called before the inner decision ran. -/
def withSentiment (r : IterResult) : IterResult :=
  ⟨r.state, Call.getSentiment :: r.trace, r.execError⟩

/-- MLTrader.on_trading_iteration: size the position; abort when
`quantity <= 0`; otherwise consult the sentiment gate and, inside the
affordability gate `cash > last_price`, run the positive/negative branch
when its label matches and `probability > 0.999`. -/
def on_trading_iteration (env : Env) (s : MLTraderState) : IterResult :=
  if (position_sizing env s).2.2 ≤ 0 then ⟨s, [], false⟩
  else
    withSentiment
      (if (position_sizing env s).1 > (position_sizing env s).2.1 then
        if (get_sentiment env s).2 = "positive" ∧ (get_sentiment env s).1 > 0.999 then
          tradeBranch env s
            (buyOrderSpec s.symbol (position_sizing env s).2.2 (position_sizing env s).2.1)
            "buy" (s.last_trade == some "sell")
        else if (get_sentiment env s).2 = "negative" ∧ (get_sentiment env s).1 > 0.999 then
          tradeBranch env s
            (sellOrderSpec s.symbol (position_sizing env s).2.2 (position_sizing env s).2.1)
            "sell" (s.last_trade == some "buy")
        else ⟨s, [], false⟩
      else ⟨s, [], false⟩)

/-- Submission calls appearing in a trace. -/
def Call.isSubmit : Call → Bool
  | Call.submitOrder _ => true
  | _ => false

/-- Liquidation calls appearing in a trace. -/
def Call.isSellAll : Call → Bool
  | Call.sellAll => true
  | _ => false

/-- Concrete environment: ample cash, a very confident positive signal,
and every collaborator call succeeding. -/
def envBuy : Env :=
  ⟨Except.ok 10000, Except.ok 100, 20000,
    fun _ => Except.ok [⟨"headline one"⟩, ⟨"headline two"⟩],
    fun _ => Except.ok (0.9995, "positive"), false, false, false⟩

/-- Concrete environment: a positive signal below the trigger threshold. -/
def envWeak : Env :=
  ⟨Except.ok 10000, Except.ok 100, 20000,
    fun _ => Except.ok [⟨"headline one"⟩],
    fun _ => Except.ok (0.99, "positive"), false, false, false⟩

/-- Concrete environment: the news fetch raises. -/
def envNewsFail : Env :=
  ⟨Except.ok 10000, Except.ok 100, 20000,
    fun _ => Except.error (),
    fun _ => Except.ok (1, "positive"), false, false, false⟩

/-- Concrete environment: the cash lookup raises. -/
def envCashFail : Env :=
  ⟨Except.error (), Except.ok 100, 20000,
    fun _ => Except.ok [⟨"headline one"⟩],
    fun _ => Except.ok (0.9995, "positive"), false, false, false⟩

/-- Concrete environment: a strong signal but `submit_order` raises. -/
def envSubmitFail : Env :=
  ⟨Except.ok 10000, Except.ok 100, 20000,
    fun _ => Except.ok [⟨"headline one"⟩],
    fun _ => Except.ok (0.9995, "positive"), false, false, true⟩

/-- Concrete environment: cash equal to the last price. -/
def envPoor : Env :=
  ⟨Except.ok 100, Except.ok 100, 20000,
    fun _ => Except.ok [⟨"headline one"⟩],
    fun _ => Except.ok (0.9995, "positive"), false, false, false⟩

/-- Concrete state whose last trade was a sell. -/
def sSell : MLTraderState := ⟨"SPY", 1/2, "24H", some "sell"⟩

/-- Concrete state with no trade yet. -/
def sNone : MLTraderState := ⟨"SPY", 1/2, "24H", none⟩

/-- Concrete state risking all cash, no trade yet. -/
def sAll : MLTraderState := ⟨"SPY", 1, "24H", none⟩

lemma rat_floor_eq (x : ℚ) : Rat.floor x = ⌊x⌋ :=
  (Rat.floor_def' x).trans Rat.floor_def.symm

lemma pythonRound_le_half (x : ℚ) : ((pythonRound x : ℤ) : ℚ) ≤ x + 1/2 := by
  have hfl : ((Rat.floor x : ℤ) : ℚ) ≤ x := by
    rw [rat_floor_eq]; exact Int.floor_le x
  unfold pythonRound
  split_ifs with h1 h2 h3 <;> push_cast <;> linarith

@[simp] lemma withSentiment_state (r : IterResult) :
    (withSentiment r).state = r.state := rfl

@[simp] lemma withSentiment_trace (r : IterResult) :
    (withSentiment r).trace = Call.getSentiment :: r.trace := rfl

@[simp] lemma withSentiment_execError (r : IterResult) :
    (withSentiment r).execError = r.execError := rfl

lemma tradeBranch_success (env : Env) (s : MLTraderState) (o : OrderSpec)
    (nt : String) (lq : Bool) (h1 : env.sell_all_fails = false)
    (h2 : env.create_order_fails = false) (h3 : env.submit_order_fails = false) :
    tradeBranch env s o nt lq =
      ⟨⟨s.symbol, s.cash_at_risk, s.sleeptime, some nt⟩,
        (if lq then [Call.sellAll] else []) ++ [Call.createOrder o, Call.submitOrder o],
        false⟩ := by
  simp [tradeBranch, h1, h2, h3]

lemma tradeBranch_state_or (env : Env) (s : MLTraderState) (o : OrderSpec)
    (nt : String) (lq : Bool) :
    ((tradeBranch env s o nt lq).state = s ∧ (tradeBranch env s o nt lq).execError = true)
    ∨ ((tradeBranch env s o nt lq).state = ⟨s.symbol, s.cash_at_risk, s.sleeptime, some nt⟩
        ∧ (tradeBranch env s o nt lq).execError = false
        ∧ Call.submitOrder o ∈ (tradeBranch env s o nt lq).trace) := by
  unfold tradeBranch
  split_ifs <;> simp

lemma onIter_state_or (env : Env) (s : MLTraderState) :
    (on_trading_iteration env s).state = s
    ∨ ∃ nt, (on_trading_iteration env s).state = ⟨s.symbol, s.cash_at_risk, s.sleeptime, some nt⟩
        ∧ (on_trading_iteration env s).execError = false
        ∧ ∃ o, Call.submitOrder o ∈ (on_trading_iteration env s).trace := by
  unfold on_trading_iteration
  split_ifs with hq hc hpos hneg
  · exact Or.inl rfl
  · rcases tradeBranch_state_or env s
      (buyOrderSpec s.symbol (position_sizing env s).2.2 (position_sizing env s).2.1)
      "buy" (s.last_trade == some "sell") with ⟨h, _⟩ | ⟨h, he, hm⟩
    · exact Or.inl (by simpa using h)
    · exact Or.inr ⟨"buy", by simpa using h, by simpa using he,
        ⟨_, by simpa using List.mem_cons_of_mem Call.getSentiment hm⟩⟩
  · rcases tradeBranch_state_or env s
      (sellOrderSpec s.symbol (position_sizing env s).2.2 (position_sizing env s).2.1)
      "sell" (s.last_trade == some "buy") with ⟨h, _⟩ | ⟨h, he, hm⟩
    · exact Or.inl (by simpa using h)
    · exact Or.inr ⟨"sell", by simpa using h, by simpa using he,
        ⟨_, by simpa using List.mem_cons_of_mem Call.getSentiment hm⟩⟩
  · exact Or.inl rfl
  · exact Or.inl rfl

lemma onIter_error_state (env : Env) (s : MLTraderState)
    (h : (on_trading_iteration env s).execError = true) :
    (on_trading_iteration env s).state = s := by
  rcases onIter_state_or env s with h1 | ⟨nt, h1, h2, _⟩
  · exact h1
  · rw [h] at h2; cases h2

/-- C2: for all cash, last_price, cash_at_risk with last_price > 0, position
sizing returns (cash, last_price, quantity) with quantity equal to
round(cash * cash_at_risk / last_price); the quantity satisfies
quantity * last_price <= cash * cash_at_risk + last_price / 2 (the rounding
slack); and whenever the cash lookup or the price lookup raises, it returns
(0, 0, 0) instead of propagating the failure. -/
theorem position_sizing_spec (env : Env) (s : MLTraderState) (cash price : ℚ)
    (hc : env.get_cash = Except.ok cash) (hp : env.get_last_price = Except.ok price)
    (hpos : 0 < price) :
    position_sizing env s
      = (cash, price, ((pythonRound (cash * s.cash_at_risk / price) : ℤ) : ℚ))
    ∧ ((pythonRound (cash * s.cash_at_risk / price) : ℤ) : ℚ) * price
        ≤ cash * s.cash_at_risk + price / 2
    ∧ ∀ env2 : Env,
        (env2.get_cash = Except.error () ∨ env2.get_last_price = Except.error ()) →
        position_sizing env2 s = (0, 0, 0) := by
  refine ⟨?_, ?_, ?_⟩
  · simp [position_sizing, hc, hp, hpos.ne']
  · have h := pythonRound_le_half (cash * s.cash_at_risk / price)
    have h2 : (cash * s.cash_at_risk / price + 1/2) * price
        = cash * s.cash_at_risk + price / 2 := by
      field_simp
      ring
    have h3 := mul_le_mul_of_nonneg_right h (le_of_lt hpos)
    linarith
  · intro env2 hfail
    rcases hfail with h | h
    · simp [position_sizing, h]
    · cases hcc : env2.get_cash with
      | error _e => simp [position_sizing, hcc]
      | ok c => simp [position_sizing, hcc, h]

/-- C2 witness: the success part and the rounding bound at a concrete
environment with cash 10000, last price 100 and cash_at_risk 1/2. -/
theorem position_sizing_spec_witness :
    position_sizing envBuy sSell
      = (10000, 100, ((pythonRound (10000 * sSell.cash_at_risk / 100) : ℤ) : ℚ))
    ∧ ((pythonRound (10000 * sSell.cash_at_risk / 100) : ℤ) : ℚ) * 100
        ≤ 10000 * sSell.cash_at_risk + 100 / 2 :=
  ⟨(position_sizing_spec envBuy sSell 10000 100 rfl rfl (by norm_num)).1,
   (position_sizing_spec envBuy sSell 10000 100 rfl rfl (by norm_num)).2.1⟩

/-- C6: when the sizing result has quantity <= 0 the iteration aborts at
once: the sentiment gate is not consulted, no order-submission call occurs,
and the state (hence last_trade) is unchanged. -/
theorem zero_quantity_aborts (env : Env) (s : MLTraderState)
    (h : (position_sizing env s).2.2 ≤ 0) :
    on_trading_iteration env s = ⟨s, [], false⟩
    ∧ Call.getSentiment ∉ (on_trading_iteration env s).trace
    ∧ (on_trading_iteration env s).trace.filter Call.isSubmit = [] := by
  have h1 : on_trading_iteration env s = ⟨s, [], false⟩ := by
    simp [on_trading_iteration, h]
  refine ⟨h1, ?_, ?_⟩ <;> rw [h1] <;> simp

/-- C6 witness: with a failing cash lookup the sizing result is (0, 0, 0),
so the iteration aborts without consulting the sentiment gate. -/
theorem zero_quantity_aborts_witness :
    on_trading_iteration envCashFail sNone = ⟨sNone, [], false⟩
    ∧ Call.getSentiment ∉ (on_trading_iteration envCashFail sNone).trace
    ∧ (on_trading_iteration envCashFail sNone).trace.filter Call.isSubmit = [] :=
  zero_quantity_aborts envCashFail sNone (by norm_num [position_sizing, envCashFail])

/-- C7: an order is submitted only when cash > last_price: with a positive
quantity but cash <= last_price, no liquidation call and no submission call
occur and the state is unchanged, whatever the sentiment result was. -/
theorem affordability_gate_blocks (env : Env) (s : MLTraderState) (cash price q : ℚ)
    (hsize : position_sizing env s = (cash, price, q)) (hq : 0 < q) (hle : cash ≤ price) :
    on_trading_iteration env s = ⟨s, [Call.getSentiment], false⟩
    ∧ (on_trading_iteration env s).trace.filter Call.isSellAll = []
    ∧ (on_trading_iteration env s).trace.filter Call.isSubmit = [] := by
  have h1 : on_trading_iteration env s = ⟨s, [Call.getSentiment], false⟩ := by
    simp [on_trading_iteration, hsize, not_le.mpr hq, not_lt.mpr hle, withSentiment]
  refine ⟨h1, ?_, ?_⟩ <;> rw [h1] <;> simp [Call.isSellAll, Call.isSubmit]

/-- C7 witness: cash 100 equal to the last price 100 with quantity 1 and a
very strong positive signal still produces no order. -/
theorem affordability_gate_blocks_witness :
    on_trading_iteration envPoor sAll = ⟨sAll, [Call.getSentiment], false⟩
    ∧ (on_trading_iteration envPoor sAll).trace.filter Call.isSellAll = []
    ∧ (on_trading_iteration envPoor sAll).trace.filter Call.isSubmit = [] :=
  affordability_gate_blocks envPoor sAll 100 100 1
    (by norm_num [position_sizing, envPoor, sAll, pythonRound, rat_floor_eq])
    (by norm_num) (by norm_num)

/-- C8: for every as_of_date from the time source, the sentiment gate issues
one news request with start date as_of_date - 3 days and end date
as_of_date, and passes the headline strings to the scoring model in the
order returned by the news collaborator, not re-sorted. -/
theorem sentiment_window_request_order (env : Env) (s : MLTraderState) :
    get_dates env.today = (env.today, env.today - 3)
    ∧ (get_sentiment_run env s).2.1 = ⟨s.symbol, env.today - 3, env.today⟩
    ∧ ∀ items, env.get_news ⟨s.symbol, env.today - 3, env.today⟩ = Except.ok items →
        (get_sentiment_run env s).2.2 = some (items.map NewsItem.headline) := by
  refine ⟨rfl, ?_, ?_⟩
  · cases h : env.get_news ⟨s.symbol, env.today - 3, env.today⟩ with
    | error _e => simp [get_sentiment_run, get_dates, h]
    | ok items =>
      cases h2 : env.estimate_sentiment (items.map NewsItem.headline) with
      | error _e => simp [get_sentiment_run, get_dates, h, h2]
      | ok r => simp [get_sentiment_run, get_dates, h, h2]
  · intro items h
    cases h2 : env.estimate_sentiment (items.map NewsItem.headline) with
    | error _e => simp [get_sentiment_run, get_dates, h, h2]
    | ok r => simp [get_sentiment_run, get_dates, h, h2]

/-- C8 witness: with as_of_date 20000 the request covers days 19997 to 20000
and the two headlines are passed through in collaborator order. -/
theorem sentiment_window_request_order_witness :
    (get_sentiment_run envBuy sSell).2.1 = ⟨sSell.symbol, envBuy.today - 3, envBuy.today⟩
    ∧ (get_sentiment_run envBuy sSell).2.2
        = some ([NewsItem.mk "headline one", NewsItem.mk "headline two"].map NewsItem.headline) :=
  ⟨(sentiment_window_request_order envBuy sSell).2.1,
   (sentiment_window_request_order envBuy sSell).2.2
     [NewsItem.mk "headline one", NewsItem.mk "headline two"] rfl⟩

/-- C1: with positive quantity, cash above the last price, last_trade = sell
and a (positive, p) sentiment with p > 0.999, the iteration performs exactly
one liquidation call followed by exactly one buy bracket submission with
quantity shares, take-profit last_price * 1.20, stop-loss last_price * 0.95,
and then sets last_trade = buy. -/
theorem buy_reversal_trade (env : Env) (s : MLTraderState) (cash price q p : ℚ)
    (hsize : position_sizing env s = (cash, price, q)) (hq : 0 < q)
    (haff : price < cash) (hlast : s.last_trade = some "sell")
    (hsent : get_sentiment env s = (p, "positive")) (hp : (0.999 : ℚ) < p)
    (h1 : env.sell_all_fails = false) (h2 : env.create_order_fails = false)
    (h3 : env.submit_order_fails = false) :
    on_trading_iteration env s =
      ⟨⟨s.symbol, s.cash_at_risk, s.sleeptime, some "buy"⟩,
        [Call.getSentiment, Call.sellAll,
          Call.createOrder (buyOrderSpec s.symbol q price),
          Call.submitOrder (buyOrderSpec s.symbol q price)], false⟩
    ∧ (on_trading_iteration env s).trace.filter Call.isSellAll = [Call.sellAll]
    ∧ (on_trading_iteration env s).trace.filter Call.isSubmit
        = [Call.submitOrder (buyOrderSpec s.symbol q price)]
    ∧ (buyOrderSpec s.symbol q price).take_profit_price = price * 1.20
    ∧ (buyOrderSpec s.symbol q price).stop_loss_price = price * 0.95
    ∧ (buyOrderSpec s.symbol q price).quantity = q := by
  have hmain : on_trading_iteration env s =
      ⟨⟨s.symbol, s.cash_at_risk, s.sleeptime, some "buy"⟩,
        [Call.getSentiment, Call.sellAll,
          Call.createOrder (buyOrderSpec s.symbol q price),
          Call.submitOrder (buyOrderSpec s.symbol q price)], false⟩ := by
    simp [on_trading_iteration, hsize, hsent, not_le.mpr hq, haff, hp, hlast,
      tradeBranch, h1, h2, h3, withSentiment]
  refine ⟨hmain, ?_, ?_, rfl, rfl, rfl⟩ <;> rw [hmain] <;>
    simp [Call.isSellAll, Call.isSubmit]

/-- C1 witness: cash 10000, price 100, quantity 50, probability 0.9995 and
last_trade = sell give the liquidate-then-buy trace and last_trade = buy. -/
theorem buy_reversal_trade_witness :
    on_trading_iteration envBuy sSell =
      ⟨⟨sSell.symbol, sSell.cash_at_risk, sSell.sleeptime, some "buy"⟩,
        [Call.getSentiment, Call.sellAll,
          Call.createOrder (buyOrderSpec sSell.symbol 50 100),
          Call.submitOrder (buyOrderSpec sSell.symbol 50 100)], false⟩ :=
  (buy_reversal_trade envBuy sSell 10000 100 50 0.9995
    (by norm_num [position_sizing, envBuy, sSell, pythonRound, rat_floor_eq])
    (by norm_num) (by norm_num) rfl rfl (by norm_num) rfl rfl rfl).1

/-- C3: with positive quantity and cash above the last price, a positive (or
negative) label whose probability is at most 0.999 submits nothing and
leaves last_trade unchanged: the trigger threshold is strictly above 0.999
in both branches. -/
theorem below_threshold_no_trade (env : Env) (s : MLTraderState)
    (cash price q p : ℚ) (lbl : String)
    (hsize : position_sizing env s = (cash, price, q)) (hq : 0 < q)
    (haff : price < cash) (hsent : get_sentiment env s = (p, lbl))
    (_hlbl : lbl = "positive" ∨ lbl = "negative") (hp : p ≤ (0.999 : ℚ)) :
    on_trading_iteration env s = ⟨s, [Call.getSentiment], false⟩
    ∧ (on_trading_iteration env s).trace.filter Call.isSubmit = []
    ∧ (on_trading_iteration env s).state.last_trade = s.last_trade := by
  have hnp : ¬ ((0.999 : ℚ) < p) := not_lt.mpr hp
  have hmain : on_trading_iteration env s = ⟨s, [Call.getSentiment], false⟩ := by
    simp [on_trading_iteration, hsize, hsent, not_le.mpr hq, haff, hnp, withSentiment]
  refine ⟨hmain, ?_, ?_⟩ <;> rw [hmain] <;> simp [Call.isSubmit]

/-- C3 witness: a (positive, 0.99) signal with quantity 50 and ample cash
produces no order and no state change. -/
theorem below_threshold_no_trade_witness :
    on_trading_iteration envWeak sNone = ⟨sNone, [Call.getSentiment], false⟩
    ∧ (on_trading_iteration envWeak sNone).trace.filter Call.isSubmit = []
    ∧ (on_trading_iteration envWeak sNone).state.last_trade = sNone.last_trade :=
  below_threshold_no_trade envWeak sNone 10000 100 50 0.99 "positive"
    (by norm_num [position_sizing, envWeak, sNone, pythonRound, rat_floor_eq])
    (by norm_num) (by norm_num) rfl (Or.inl rfl) (by norm_num)

/-- C4: whenever the news fetch or the sentiment scoring raises, the
sentiment gate returns exactly (0.5, neutral) without propagating the error,
and with that default the iteration submits no order and leaves the state
unchanged. -/
theorem sentiment_failure_neutral_no_trade (env : Env) (s : MLTraderState)
    (hfail : env.get_news ⟨s.symbol, env.today - 3, env.today⟩ = Except.error ()
      ∨ ∃ items, env.get_news ⟨s.symbol, env.today - 3, env.today⟩ = Except.ok items
          ∧ env.estimate_sentiment (items.map NewsItem.headline) = Except.error ()) :
    get_sentiment env s = ((0.5 : ℚ), "neutral")
    ∧ (on_trading_iteration env s).state = s
    ∧ (on_trading_iteration env s).trace.filter Call.isSubmit = [] := by
  have hneutral : get_sentiment env s = ((0.5 : ℚ), "neutral") := by
    rcases hfail with h | ⟨items, h, h2⟩
    · norm_num [get_sentiment, get_sentiment_run, get_dates, h]
    · norm_num [get_sentiment, get_sentiment_run, get_dates, h, h2]
  refine ⟨hneutral, ?_, ?_⟩ <;>
    by_cases hq0 : (position_sizing env s).2.2 ≤ 0 <;>
    simp [on_trading_iteration, hq0, hneutral, withSentiment, Call.isSubmit]

/-- C4 witness: a raising news fetch yields the neutral default and an
iteration with no submission and unchanged state. -/
theorem sentiment_failure_neutral_no_trade_witness :
    get_sentiment envNewsFail sNone = ((0.5 : ℚ), "neutral")
    ∧ (on_trading_iteration envNewsFail sNone).state = sNone
    ∧ (on_trading_iteration envNewsFail sNone).trace.filter Call.isSubmit = [] :=
  sentiment_failure_neutral_no_trade envNewsFail sNone (Or.inl rfl)

/-- C5: if an error is raised during liquidation, order construction or
order submission, it is caught and the iteration ends with the whole state
(in particular last_trade) exactly as at the start of the iteration. -/
theorem exec_error_state_unchanged (env : Env) (s : MLTraderState)
    (h : (on_trading_iteration env s).execError = true) :
    (on_trading_iteration env s).state = s :=
  onIter_error_state env s h

/-- C5 witness: a strong buy signal whose submit_order call raises leaves
the state, including last_trade = sell, unchanged. -/
theorem exec_error_state_unchanged_witness :
    (on_trading_iteration envSubmitFail sSell).state = sSell :=
  exec_error_state_unchanged envSubmitFail sSell
    (by norm_num [on_trading_iteration, position_sizing, get_sentiment,
      get_sentiment_run, get_dates, pythonRound, rat_floor_eq, tradeBranch,
      withSentiment, envSubmitFail, sSell])

/-- C9: an iteration can mutate only last_trade: symbol, cash_at_risk and
sleeptime are unchanged, and last_trade changes only when no execution error
occurred and a submit_order call is in the trace. -/
theorem last_trade_only_mutation (env : Env) (s : MLTraderState) :
    (on_trading_iteration env s).state.symbol = s.symbol
    ∧ (on_trading_iteration env s).state.cash_at_risk = s.cash_at_risk
    ∧ (on_trading_iteration env s).state.sleeptime = s.sleeptime
    ∧ ((on_trading_iteration env s).state.last_trade ≠ s.last_trade →
        (on_trading_iteration env s).execError = false
        ∧ ∃ o, Call.submitOrder o ∈ (on_trading_iteration env s).trace) := by
  rcases onIter_state_or env s with h | ⟨nt, h, he, hm⟩
  · rw [h]; exact ⟨rfl, rfl, rfl, fun hne => absurd rfl hne⟩
  · rw [h]; exact ⟨rfl, rfl, rfl, fun _ => ⟨he, hm⟩⟩

/-- C9 witness: the frame conjuncts at the concrete buy-reversal run. -/
theorem last_trade_only_mutation_witness :
    (on_trading_iteration envBuy sSell).state.symbol = sSell.symbol
    ∧ (on_trading_iteration envBuy sSell).state.cash_at_risk = sSell.cash_at_risk
    ∧ (on_trading_iteration envBuy sSell).state.sleeptime = sSell.sleeptime :=
  ⟨(last_trade_only_mutation envBuy sSell).1,
   (last_trade_only_mutation envBuy sSell).2.1,
   (last_trade_only_mutation envBuy sSell).2.2.1⟩

/-- C10: liquidation happens only on direction reversal: a strong positive
signal with last_trade none or buy submits a buy bracket with no sell_all
call, and a strong negative signal with last_trade none or sell submits a
sell bracket with no sell_all call, so repeated same-direction signals stack
new bracket orders. -/
theorem same_direction_no_liquidation (env : Env) (s : MLTraderState)
    (cash price q : ℚ)
    (hsize : position_sizing env s = (cash, price, q)) (hq : 0 < q)
    (haff : price < cash)
    (h1 : env.sell_all_fails = false) (h2 : env.create_order_fails = false)
    (h3 : env.submit_order_fails = false) :
    (∀ p : ℚ, get_sentiment env s = (p, "positive") → (0.999 : ℚ) < p →
      (s.last_trade = none ∨ s.last_trade = some "buy") →
      on_trading_iteration env s =
        ⟨⟨s.symbol, s.cash_at_risk, s.sleeptime, some "buy"⟩,
          [Call.getSentiment, Call.createOrder (buyOrderSpec s.symbol q price),
            Call.submitOrder (buyOrderSpec s.symbol q price)], false⟩)
    ∧ (∀ p : ℚ, get_sentiment env s = (p, "negative") → (0.999 : ℚ) < p →
      (s.last_trade = none ∨ s.last_trade = some "sell") →
      on_trading_iteration env s =
        ⟨⟨s.symbol, s.cash_at_risk, s.sleeptime, some "sell"⟩,
          [Call.getSentiment, Call.createOrder (sellOrderSpec s.symbol q price),
            Call.submitOrder (sellOrderSpec s.symbol q price)], false⟩) := by
  constructor
  · intro p hsent hp hlast
    have hbeq : (s.last_trade == some "sell") = false := by
      rcases hlast with h | h <;> rw [h] <;> decide
    simp [on_trading_iteration, hsize, hsent, not_le.mpr hq, haff, hp, hbeq,
      tradeBranch, h1, h2, h3, withSentiment]
  · intro p hsent hp hlast
    have hbeq : (s.last_trade == some "buy") = false := by
      rcases hlast with h | h <;> rw [h] <;> decide
    simp [on_trading_iteration, hsize, hsent, not_le.mpr hq, haff, hp, hbeq,
      tradeBranch, h1, h2, h3, withSentiment]

/-- C10 witness: a strong positive signal with last_trade = none submits a
buy bracket with no liquidation call preceding it. -/
theorem same_direction_no_liquidation_witness :
    on_trading_iteration envBuy sNone =
      ⟨⟨sNone.symbol, sNone.cash_at_risk, sNone.sleeptime, some "buy"⟩,
        [Call.getSentiment, Call.createOrder (buyOrderSpec sNone.symbol 50 100),
          Call.submitOrder (buyOrderSpec sNone.symbol 50 100)], false⟩ :=
  (same_direction_no_liquidation envBuy sNone 10000 100 50
    (by norm_num [position_sizing, envBuy, sNone, pythonRound, rat_floor_eq])
    (by norm_num) (by norm_num) rfl rfl rfl).1 0.9995 rfl (by norm_num) (Or.inl rfl)
